import Mathlib

/-!
Verification development for the devpage entity-simulation engine.

The JavaScript source is embedded shallowly:

* gene values and probabilities are rationals (`ℚ`);
* physics quantities (positions, velocities, angles) are reals (`ℝ`),
  with `Math.hypot`/`Math.sqrt` as `Real.sqrt` and `Math.atan2` as an
  explicit case split over `Real.arctan`;
* a JS `Map` is an association list with insertion-order semantics
  (`set` updates in place, otherwise appends);
* every `Math.random()` call site receives its own oracle value,
  assumed to lie in `[0, 1)` where the claim needs it;
* DOM-only behaviour (CSS classes, SVG fetching) is reduced to the
  state the engine reads back: `mounted`, `alive`, `dying`, the
  `onHit` acknowledgment flag, and the success path of the async
  `infectWith` transform.
-/

namespace Devpage

/-! ## Constants (`constants.js` DEFAULTS) -/

namespace DEFAULTS

def ICON_HALF : ℝ := 12
def BASE_SPEED : ℝ := 0.8
def MAX_SPEED_FACTOR : ℝ := 2.5
def DRIFT_CHANCE : ℚ := 0.02
def DRIFT_MAGNITUDE : ℝ := 0.25
def COLLISION_DIAMETER : ℝ := 24
def VIRUS_KILL_CHANCE : ℚ := 0.9
def MUTATION_RATE : ℚ := 0.10
def DIVISION_INTERVAL_MIN : ℚ := 900
def DIVISION_INTERVAL_MAX : ℚ := 3600
def MIN_CELL_COUNT : ℕ := 2
def MAX_POPULATION : ℕ := 50
def LOGO_LETTER_HALF : ℝ := 18
def LOGO_LETTER_GAP : ℝ := 32
def LOGO_WORD_BASE_SPEED : ℝ := 0.08
def LOGO_BUMP_THRESHOLD_MIN : ℤ := 1000
def LOGO_BUMP_THRESHOLD_MAX : ℤ := 1200
def LOGO_SPRING_K : ℝ := 0.04
def LOGO_SPRING_DAMPING : ℝ := 0.88
def LOGO_REATTACH_RADIUS : ℝ := 20
def LOGO_COLLISION_DIAMETER : ℝ := 30
def LOGO_EJECT_MAX_SPEED : ℝ := 3.5
def LOGO_EJECT_IMPULSE : ℝ := 2.2

end DEFAULTS

/-! ## Gene registry (`dna.js` GENE_DEFS) -/

/-- One entry of the gene registry: numeric range, default value, colour
shift coefficients, entity pool. -/
structure GeneDef where
  min : ℚ
  max : ℚ
  default : ℚ
  hueShift : ℚ
  satShift : ℚ
  applies : String
  deriving DecidableEq, Repr

/-- The gene registry `GENE_DEFS`, as a lookup from name to definition.
Unknown names yield `none` (JS: `GENE_DEFS[gene]` is `undefined`). -/
def GENE_DEFS (gene : String) : Option GeneDef :=
  if gene = "speed" then
    some ⟨0.7, 1.5, 1.0, 40, 0, "cell"⟩
  else if gene = "resistance" then
    some ⟨0.0, 0.60, 0.0, -25, 10, "cell"⟩
  else if gene = "shield" then
    some ⟨0.0, 1.0, 0.0, 30, 12, "cell"⟩
  else if gene = "division_rate" then
    some ⟨0.5, 2.5, 1.0, 10, -8, "cell"⟩
  else if gene = "hunt_speed" then
    some ⟨0.8, 2.0, 1.0, 20, 10, "virus"⟩
  else if gene = "lethality" then
    some ⟨0.0, 0.35, 0.0, -15, 15, "virus"⟩
  else
    none

/-- Key order of `GENE_DEFS` as iterated by `Object.entries` (insertion
order of the object literal). -/
def GENE_KEYS : List String :=
  ["speed", "resistance", "shield", "division_rate", "hunt_speed", "lethality"]

/-! ## JS `Map` semantics over association lists -/

namespace JsMap

/-- Membership test (`Map.has`). -/
def has (l : List (String × ℚ)) (k : String) : Bool :=
  l.any (fun p => p.1 == k)

/-- Lookup (`Map.get`), `none` when absent. -/
def find (l : List (String × ℚ)) (k : String) : Option ℚ :=
  (l.find? (fun p => p.1 == k)).map (·.2)

/-- Update-in-place-or-append (`Map.set`): an existing key keeps its
position in iteration order, a new key is appended. -/
def set (l : List (String × ℚ)) (k : String) (v : ℚ) : List (String × ℚ) :=
  if has l k then
    l.map (fun p => if p.1 == k then (k, v) else p)
  else
    l ++ [(k, v)]

/-- Removal (`Map.delete`). -/
def del (l : List (String × ℚ)) (k : String) : List (String × ℚ) :=
  l.filter (fun p => ¬(p.1 == k))

end JsMap

/-! ## Trait-sets (`dna.js` class DNA) -/

/-- A DNA instance wraps the gene map (JS `Map<string, number>`). -/
structure DNA where
  genes : List (String × ℚ)
  deriving DecidableEq, Repr

namespace DNA

/-- `DNA.empty()`. -/
def empty : DNA := ⟨[]⟩

/-- `has(gene)`. -/
def has (d : DNA) (gene : String) : Bool := JsMap.has d.genes gene

/-- `get(gene)`: stored value, else the registry default, else 0
(JS: `GENE_DEFS[gene]?.default ?? 0`). -/
def get (d : DNA) (gene : String) : ℚ :=
  match JsMap.find d.genes gene with
  | some v => v
  | none =>
    match GENE_DEFS gene with
    | some def_ => def_.default
    | none => 0

/-- `size`. -/
def size (d : DNA) : ℕ := d.genes.length

/-- Oracle values for the `Math.random()` call sites inside
`reproduce`: one drift check and one drift amount per gene name, plus
the emergence check/choice and silencing check/choice rolls. -/
structure ReproduceRand where
  driftCheck : String → ℚ
  driftAmt : String → ℚ
  emergeCheck : ℚ
  emergeChoice : ℚ
  silenceCheck : ℚ
  silenceChoice : ℚ

/-- Oracle validity: every `Math.random()` result lies in `[0, 1)`. -/
def ReproduceRand.Valid (r : ReproduceRand) : Prop :=
  (∀ g, 0 ≤ r.driftCheck g ∧ r.driftCheck g < 1) ∧
  (∀ g, 0 ≤ r.driftAmt g ∧ r.driftAmt g < 1) ∧
  (0 ≤ r.emergeCheck ∧ r.emergeCheck < 1) ∧
  (0 ≤ r.emergeChoice ∧ r.emergeChoice < 1) ∧
  (0 ≤ r.silenceCheck ∧ r.silenceCheck < 1) ∧
  (0 ≤ r.silenceChoice ∧ r.silenceChoice < 1)

/-- Drift step of `reproduce`: each active gene, with probability
`mutationRate`, drifts by up to ±15 % of its range, clamped to range.
Iterating the map while setting existing keys visits each key once, so
this is a map over the entries. Genes without a registry entry are
skipped (`if (!def) continue`). -/
def driftStep (genes : List (String × ℚ)) (mutationRate : ℚ)
    (rnd : ReproduceRand) : List (String × ℚ) :=
  genes.map (fun p =>
    if rnd.driftCheck p.1 < mutationRate then
      match GENE_DEFS p.1 with
      | none => p
      | some def_ =>
        let drift := (def_.max - def_.min) * 0.15 * (rnd.driftAmt p.1 * 2 - 1)
        (p.1, max def_.min (min def_.max (p.2 + drift)))
    else p)

/-- Seeding of the emerged gene: `newGenes.set(key, def.min + (def.max
- def.min) * 0.1)`. The chosen key is always registered in the source;
an unregistered key (unreachable there) leaves the map unchanged. -/
def emergeApply (genes : List (String × ℚ)) (key : String) :
    List (String × ℚ) :=
  match GENE_DEFS key with
  | some def_ => JsMap.set genes key (def_.min + (def_.max - def_.min) * 0.1)
  | none => genes

/-- Emergence step of `reproduce`: with probability `mutationRate × 0.4`,
one random not-yet-active gene of the pool emerges at `min + 10 %` of
its range. `Math.floor(random * length)` selects the candidate index. -/
def emergeStep (genes : List (String × ℚ)) (mutationRate : ℚ) (pool : String)
    (rnd : ReproduceRand) : List (String × ℚ) :=
  if rnd.emergeCheck < mutationRate * 0.4 then
    let candidates := GENE_KEYS.filter (fun k =>
      (match GENE_DEFS k with
       | some def_ => def_.applies == pool
       | none => false) && !(JsMap.has genes k))
    if candidates.length > 0 then
      emergeApply genes
        (candidates.getD (Int.toNat ⌊rnd.emergeChoice * candidates.length⌋) "")
    else genes
  else genes

/-- Silencing step of `reproduce`: with probability `mutationRate × 0.15`
(only when at least one gene is active), one random active gene is
deleted. -/
def silenceStep (genes : List (String × ℚ)) (mutationRate : ℚ)
    (rnd : ReproduceRand) : List (String × ℚ) :=
  if genes.length > 0 && rnd.silenceCheck < mutationRate * 0.15 then
    let keys := genes.map (·.1)
    JsMap.del genes (keys.getD (Int.toNat ⌊rnd.silenceChoice * keys.length⌋) "")
  else genes

/-- `reproduce(mutationRate, pool)`: drift, then emergence, then
silencing, on a copy of the gene map. -/
def reproduce (d : DNA) (mutationRate : ℚ) (pool : String)
    (rnd : ReproduceRand) : DNA :=
  ⟨silenceStep (emergeStep (driftStep d.genes mutationRate rnd) mutationRate pool rnd)
    mutationRate rnd⟩

/-- `serialise()`: the active genes as a flat numeric mapping
(`Object.fromEntries` keeps iteration order). -/
def serialise (d : DNA) : List (String × ℚ) := d.genes

/-- Loop body of `deserialise`: an unknown gene name is skipped, a
known one is stored with its value clamped to the gene's range. -/
def deserialiseStep (genes : List (String × ℚ)) (p : String × ℚ) :
    List (String × ℚ) :=
  match GENE_DEFS p.1 with
  | none => genes
  | some def_ => JsMap.set genes p.1 (max def_.min (min def_.max p.2))

/-- `deserialise(obj)`: entries are replayed in order; unknown gene
names are dropped and values are clamped to the gene's range. The
input models a flat numeric JS object (unique keys, numeric values);
the JS `typeof value !== 'number'` guard is vacuous in this model. -/
def deserialise (obj : List (String × ℚ)) : DNA :=
  ⟨obj.foldl deserialiseStep []⟩

/-- `DNA.forVirus(cellDNA)`: arms-race derivation — significant host
resistance becomes compensating virus lethality. -/
def forVirus (cellDNA : Option DNA) : DNA :=
  match cellDNA with
  | some d =>
    let resistance := d.get "resistance"
    if resistance > 0.15 then
      match GENE_DEFS "lethality" with
      | some def_ => ⟨JsMap.set [] "lethality" (min def_.max (resistance * 0.55))⟩
      | none => ⟨[]⟩
    else ⟨[]⟩
  | none => ⟨[]⟩

end DNA

/-! ## Entities (`entity.js` class Entity)

The DOM node pair is reduced to a `mounted` flag (`el`/`bodyEl` are
non-null exactly when the entity is mounted). Colour fields are purely
visual and are not modelled. -/

/-- Viewport bounds, read fresh each tick (`window.innerWidth/Height`). -/
structure Viewport where
  vw : ℝ
  vh : ℝ

/-- One simulated entity: physics state, identity, lifecycle flags,
division countdown and trait-set. `divisionTimer = -1` means "not a
cell". -/
structure Entity where
  x : ℝ
  y : ℝ
  vx : ℝ
  vy : ℝ
  entityKey : String
  alive : Bool
  dying : Bool
  mounted : Bool
  infected : Bool
  divisionTimer : ℤ
  dna : DNA

/-- JS `Math.round` (round half toward +∞). -/
def jsRound (q : ℚ) : ℤ := ⌊q + 1 / 2⌋

namespace Entity

/-- Oracle values for the `Math.random()` call sites in one `update`:
the drift-chance roll and the two kick components. -/
structure UpdateRand where
  driftRoll : ℚ
  r1 : ℚ
  r2 : ℚ

/-- Speed-gene key used by `update`: `hunt_speed` for viruses, `speed`
otherwise. -/
def speedGeneKey (e : Entity) : String :=
  if e.entityKey == "virus-filled" then "hunt_speed" else "speed"

/-- Trait speed multiplier `this.dna.get(geneKey)` as a real. -/
noncomputable def geneMult (e : Entity) : ℝ := (e.dna.get (speedGeneKey e) : ℚ)

/-- Position reached by the movement step of `update`, before edge
bouncing: `x + vx * speedMultiplier * geneMult`. -/
noncomputable def movedX (e : Entity) (speedMultiplier : ℝ) : ℝ :=
  e.x + e.vx * speedMultiplier * e.geneMult

/-- Same as `movedX` for the y coordinate. -/
noncomputable def movedY (e : Entity) (speedMultiplier : ℝ) : ℝ :=
  e.y + e.vy * speedMultiplier * e.geneMult

/-- The two sequential edge-bounce branches of one axis
(`if (pos - h <= 0) … ; if (pos + h >= limit) …`): the second branch
reads the values written by the first. -/
noncomputable def bounceAxis (pos vel half limit : ℝ) : ℝ × ℝ :=
  let p1 := if pos - half ≤ 0 then (half, |vel|) else (pos, vel)
  if p1.1 + half ≥ limit then (limit - half, -|p1.2|) else p1

open DEFAULTS in
/-- `update(speedMultiplier)`: no-op unless mounted, alive and not
dying; ticks the division countdown for cells, advances position,
bounces off the four viewport edges with the reflect-by-absolute-value
rule (the x and y branch pairs are independent), then applies the
low-probability random drift kick followed by the hard speed cap. -/
noncomputable def update (e : Entity) (speedMultiplier : ℝ) (vp : Viewport)
    (rnd : UpdateRand) : Entity :=
  if ¬e.mounted ∨ ¬e.alive ∨ e.dying then e
  else
    let timer : ℤ :=
      if e.entityKey == "cell" && e.divisionTimer > 0 then e.divisionTimer - 1
      else e.divisionTimer
    let px := bounceAxis (e.movedX speedMultiplier) e.vx ICON_HALF vp.vw
    let py := bounceAxis (e.movedY speedMultiplier) e.vy ICON_HALF vp.vh
    if rnd.driftRoll < DRIFT_CHANCE then
      let vx1 := px.2 + ((rnd.r1 : ℝ) - 0.5) * DRIFT_MAGNITUDE
      let vy1 := py.2 + ((rnd.r2 : ℝ) - 0.5) * DRIFT_MAGNITUDE
      let spd := Real.sqrt (vx1 ^ 2 + vy1 ^ 2)
      let mx := BASE_SPEED * MAX_SPEED_FACTOR
      if spd > mx then
        { e with divisionTimer := timer, x := px.1, y := py.1,
                 vx := vx1 / spd * mx, vy := vy1 / spd * mx }
      else
        { e with divisionTimer := timer, x := px.1, y := py.1,
                 vx := vx1, vy := vy1 }
    else
      { e with divisionTimer := timer, x := px.1, y := py.1,
               vx := px.2, vy := py.2 }

/-- `wantsToDivide`: the cell completed its division interval. -/
def wantsToDivide (e : Entity) : Bool :=
  e.entityKey == "cell" && e.divisionTimer == 0 && e.alive && !e.dying

open DEFAULTS in
/-- `resetDivision()`: new random countdown scaled inversely by the
`division_rate` gene. `r` is the `Math.random()` oracle value. -/
def resetDivision (e : Entity) (r : ℚ) : Entity :=
  let rate := e.dna.get "division_rate"
  let mn := jsRound (DIVISION_INTERVAL_MIN / rate)
  let mx := jsRound (DIVISION_INTERVAL_MAX / rate)
  { e with divisionTimer := mn + ⌊r * ((mx : ℚ) - mn + 1)⌋ }

/-- `die()`: idempotent start of the death sequence — freeze velocity,
set the dying flag. The timed CSS phases are visual only. -/
def die (e : Entity) : Entity :=
  if e.dying ∨ ¬e.mounted ∨ ¬e.alive then e
  else { e with dying := true, vx := 0, vy := 0 }

/-- Oracle values for one `divide()` call: the launch-angle roll and
the oracles consumed by `DNA.reproduce`. -/
structure DivideRand where
  angleR : ℚ
  repro : DNA.ReproduceRand

/-- Offspring config produced by `divide()` (the colour field is
visual and not modelled). -/
structure Offspring where
  name : String
  type_ : String
  dna : DNA
  x : ℝ
  y : ℝ
  vx : ℝ
  vy : ℝ

open DEFAULTS in
/-- `divide()`: offspring placed at a fixed radial offset at a random
angle, position clamped into the viewport, launched outward at
`BASE_SPEED`, with DNA mutated via `reproduce`. -/
noncomputable def divide (e : Entity) (vp : Viewport) (r : DivideRand) : Offspring :=
  let offset := COLLISION_DIAMETER * 0.65
  let angle := (r.angleR : ℝ) * Real.pi * 2
  let nx := Real.cos angle
  let ny := Real.sin angle
  let childDna := e.dna.reproduce MUTATION_RATE "cell" r.repro
  let cx := max ICON_HALF (min (vp.vw - ICON_HALF) (e.x + nx * offset))
  let cy := max ICON_HALF (min (vp.vh - ICON_HALF) (e.y + ny * offset))
  { name := "cell", type_ := "good", dna := childDna,
    x := cx, y := cy, vx := nx * BASE_SPEED, vy := ny * BASE_SPEED }

/-- Success path of the async `infectWith(iconName, …)` transform:
guards, identity/DNA swap, division-timer (re)initialisation. The
intermediate awaited states and the failure-revert path are not
reachable in the synchronous model. `divR` is the oracle for the
`resetDivision` call on a cell transform. -/
def infectWith (e : Entity) (iconName : String) (force : Bool)
    (dna : Option DNA) (divR : ℚ) : Entity :=
  if e.dying ∨ ¬e.mounted ∨ ¬e.alive then e
  else if ¬force ∧ e.infected then e
  else
    let e1 := { e with infected := true, entityKey := iconName,
                       dna := dna.getD e.dna }
    if iconName == "cell" then resetDivision e1 divR
    else { e1 with divisionTimer := -1 }

end Entity

/-! ## Collision & simulation engine (`evolution.js` EvolutionController) -/

/-- JS `Math.atan2(y, x)` (the `-0` inputs of JS are not modelled). -/
noncomputable def atan2 (y x : ℝ) : ℝ :=
  if 0 < x then Real.arctan (y / x)
  else if x < 0 then
    (if 0 ≤ y then Real.arctan (y / x) + Real.pi else Real.arctan (y / x) - Real.pi)
  else
    (if 0 < y then Real.pi / 2 else if y < 0 then -(Real.pi / 2) else 0)

/-- Closed form of the two normalisation loops in `#resolveVirusContact`
(`while (diff > π) diff -= 2π; while (diff < -π) diff += 2π`): a value
above `π` is brought into `(-π, π]` by the smallest sufficient number
of `2π` subtractions, a value below `-π` into `[-π, π)` likewise. -/
noncomputable def normalizeAngle (d : ℝ) : ℝ :=
  if Real.pi < d then d - 2 * Real.pi * ⌈(d - Real.pi) / (2 * Real.pi)⌉
  else if d < -Real.pi then d + 2 * Real.pi * ⌈(-Real.pi - d) / (2 * Real.pi)⌉
  else d

/-- Decision of the kill branch in `#resolveVirusContact(virus, target,
approachAngle)`: `false` when the shield cone blocks the attack or the
kill roll fails, `true` exactly when `target.die()` is invoked.
`killChance` is the controller's `#virusKillChance`; `roll` is the
kill-roll `Math.random()` oracle. -/
noncomputable def resolveVirusKillDecision (killChance : ℚ) (virus target : Entity)
    (approachAngle : ℝ) (roll : ℚ) : Bool :=
  let killRoll : Bool :=
    let resistance := target.dna.get "resistance"
    let killChance1 := max 0 (killChance - resistance)
    let lethalBonus := virus.dna.get "lethality"
    let effectiveKill := min 1 (killChance1 + lethalBonus)
    decide (roll < effectiveKill)
  let shieldStrength : ℝ := (target.dna.get "shield" : ℚ)
  if 0 < shieldStrength then
    let spd := Real.sqrt (target.vx ^ 2 + target.vy ^ 2)
    if 0.01 < spd then
      let frontAngle := atan2 target.vy target.vx
      let halfWidth := shieldStrength * (Real.pi / 2)
      let diff := normalizeAngle (approachAngle - frontAngle)
      if |diff| < halfWidth then false else killRoll
    else killRoll
  else killRoll

/-- `#resolveVirusContact`: applies `target.die()` exactly when the
kill decision fires (the disabled bacteria-mutation path does
nothing on a failed roll). -/
noncomputable def resolveVirusContact (killChance : ℚ) (virus target : Entity)
    (approachAngle : ℝ) (roll : ℚ) : Entity :=
  if resolveVirusKillDecision killChance virus target approachAngle roll then
    target.die
  else target

/-- Oracle values for the `Math.random()` call sites reachable in one
pair resolution: the kill roll and the `resetDivision` roll of a cure
transform. -/
structure PairRand where
  killRoll : ℚ
  cureDivR : ℚ

/-- Result of resolving one entity pair: the updated entities and
whether each side's `onHit()` was called. -/
structure PairResult where
  a : Entity
  b : Entity
  aHit : Bool
  bHit : Bool

/-- Elastic impulse of `#checkCollisions` along the collision normal:
equal-mass exchange, except that in a bug collision only the bug's
velocity reflects. Applied only to approaching pairs (`dot > 0`). -/
noncomputable def impulseStage (a b : Entity) (nx ny : ℝ) : Entity × Entity :=
  let aIsBug := a.entityKey == "bug"
  let bIsBug := b.entityKey == "bug"
  let dot := (a.vx - b.vx) * nx + (a.vy - b.vy) * ny
  if 0 < dot then
    if aIsBug || bIsBug then
      (if aIsBug then
        ({ a with vx := a.vx - dot * nx, vy := a.vy - dot * ny }, b)
      else
        (a, { b with vx := b.vx + dot * nx, vy := b.vy + dot * ny }))
    else
      ({ a with vx := a.vx - dot * nx, vy := a.vy - dot * ny },
       { b with vx := b.vx + dot * nx, vy := b.vy + dot * ny })
  else (a, b)

/-- Bug infection / cure block of `#checkCollisions`: a bug transforms
its non-immune partner into `virus-filled` (with arms-race DNA) and
cures a `virus-filled` partner back to a cell (forced). -/
noncomputable def infectionStage (a b : Entity) (cureDivR : ℚ) : Entity × Entity :=
  let bugImmune : List String := ["bug", "bacteria"]
  if a.entityKey == "bug" then
    (a,
      if b.entityKey == "virus-filled" then
        b.infectWith "cell" true none cureDivR
      else if !(bugImmune.contains b.entityKey) then
        b.infectWith "virus-filled" false (some (DNA.forVirus (some b.dna))) cureDivR
      else b)
  else if b.entityKey == "bug" then
    ((if a.entityKey == "virus-filled" then
        a.infectWith "cell" true none cureDivR
      else if !(bugImmune.contains a.entityKey) then
        a.infectWith "virus-filled" false (some (DNA.forVirus (some a.dna))) cureDivR
      else a), b)
  else (a, b)

/-- Virus kill block of `#checkCollisions`: a `virus-filled` side may
kill its non-immune partner, with the approach angle derived from the
collision normal. -/
noncomputable def virusStage (killChance : ℚ) (a b : Entity) (nx ny : ℝ)
    (killRoll : ℚ) : Entity × Entity :=
  let virusImmune : List String := ["bug", "virus-filled", "bacteria"]
  if a.entityKey == "virus-filled" && !(virusImmune.contains b.entityKey) then
    (a, resolveVirusContact killChance a b (atan2 (-ny) (-nx)) killRoll)
  else if b.entityKey == "virus-filled" && !(virusImmune.contains a.entityKey) then
    (resolveVirusContact killChance b a (atan2 ny nx) killRoll, b)
  else (a, b)

open DEFAULTS in
/-- Body of the inner loop of `#checkCollisions` for one pair `(a, b)`:
skip guards, elastic impulse (with the bug pass-through asymmetry),
symmetric positional correction, `onHit` feedback, bug
infection/cure, and the virus kill resolution. The `entityKey` checks
of the later stages read the keys already rewritten synchronously by a
bug infection in the same pass, as in the source. -/
noncomputable def checkCollisionPair (killChance : ℚ) (a b : Entity)
    (rnd : PairRand) : PairResult :=
  if ¬a.alive ∨ ¬b.alive ∨ a.dying ∨ b.dying then ⟨a, b, false, false⟩
  else
    let dx := b.x - a.x
    let dy := b.y - a.y
    let dist := Real.sqrt (dx ^ 2 + dy ^ 2)
    if COLLISION_DIAMETER ≤ dist ∨ dist = 0 then ⟨a, b, false, false⟩
    else
      let nx := dx / dist
      let ny := dy / dist
      let aIsBug := a.entityKey == "bug"
      let bIsBug := b.entityKey == "bug"
      let ab1 := impulseStage a b nx ny
      -- positional correction, symmetric
      let half := (COLLISION_DIAMETER - dist) / 2
      let a2 := { ab1.1 with x := ab1.1.x - half * nx, y := ab1.1.y - half * ny }
      let b2 := { ab1.2 with x := ab1.2.x + half * nx, y := ab1.2.y + half * ny }
      -- onHit feedback: both sides, or only the bug side
      let hits :=
        if !aIsBug && !bIsBug then (true, true)
        else if aIsBug then (true, false)
        else (false, true)
      let ab3 := infectionStage a2 b2 rnd.cureDivR
      let ab4 := virusStage killChance ab3.1 ab3.2 nx ny rnd.killRoll
      ⟨ab4.1, ab4.2, hits.1, hits.2⟩

/-! ### Cell-division block of the tick loop (`#startLoop`) -/

/-- Oracle values for one entity's division this tick: the
`resetDivision` roll and the `divide()` oracles. -/
structure DivisionRand where
  resetR : ℚ
  div : Entity.DivideRand

/-- Loop body of the division block: every entity that `wantsToDivide`
has its countdown reset and contributes one offspring config
(`entity.resetDivision(); this.#spawnOffspring(entity.divide())`).
The oracle is indexed by list position. -/
noncomputable def divisionLoop (vp : Viewport) (rnd : ℕ → DivisionRand) :
    List Entity → ℕ → List Entity × List Entity.Offspring
  | [], _ => ([], [])
  | e :: rest, i =>
    let tail := divisionLoop vp rnd rest (i + 1)
    if e.wantsToDivide then
      let e1 := e.resetDivision (rnd i).resetR
      (e1 :: tail.1, e1.divide vp (rnd i).div :: tail.2)
    else (e :: tail.1, tail.2)

open DEFAULTS in
/-- Division block of one tick: skipped entirely while the population
is at or above `MAX_POPULATION`. Returns the updated entity list and
the offspring configs handed to `#spawnOffspring`. -/
noncomputable def divisionPhase (entities : List Entity) (vp : Viewport)
    (rnd : ℕ → DivisionRand) : List Entity × List Entity.Offspring :=
  if entities.length < MAX_POPULATION then divisionLoop vp rnd entities 0
  else (entities, [])

/-! ## Logo letters (`logoLetter.js` class LogoLetter and the bump
block of `logoController.js` `checkCollisionsWithEntities`) -/

/-- One rigid member of the logo word; DOM labels are visual only and
reduced to the counters they display. -/
structure LogoLetter where
  slotIndex : ℕ
  x : ℝ
  y : ℝ
  vx : ℝ
  vy : ℝ
  ejected : Bool
  bumpCount : ℕ
  totalHits : ℕ
  bumpThreshold : ℤ
  mounted : Bool

namespace LogoLetter

/-- `onBump()`: increments both counters, returns whether this hit
triggers ejection (`!ejected && bumpCount > bumpThreshold`, checked on
the incremented counter). -/
def onBump (l : LogoLetter) : Bool × LogoLetter :=
  let l1 := { l with bumpCount := l.bumpCount + 1, totalHits := l.totalHits + 1 }
  (!l1.ejected && decide ((l1.bumpCount : ℤ) > l1.bumpThreshold), l1)

/-- `eject(impulseVx, impulseVy)`: launch as a free-flying projectile. -/
def eject (l : LogoLetter) (impulseVx impulseVy : ℝ) : LogoLetter :=
  { l with ejected := true, vx := impulseVx, vy := impulseVy }

open DEFAULTS in
/-- A fresh random ejection threshold:
`MIN + Math.floor(random * (MAX - MIN))`. -/
def drawThreshold (r : ℚ) : ℤ :=
  LOGO_BUMP_THRESHOLD_MIN +
    ⌊r * ((LOGO_BUMP_THRESHOLD_MAX : ℚ) - (LOGO_BUMP_THRESHOLD_MIN : ℚ))⌋

open DEFAULTS in
/-- Bump block of `checkCollisionsWithEntities` for one letter hit:
`onBump`, and on ejection the outward impulse `-n × LOGO_EJECT_IMPULSE`
along the collision normal `(nx, ny)` (letter centre → entity centre),
the cycle-counter reset and a fresh threshold `threshR` draw. -/
noncomputable def letterBumpStep (letter : LogoLetter) (nx ny : ℝ) (threshR : ℚ) :
    LogoLetter :=
  let res := onBump letter
  if res.1 then
    let l1 := eject res.2 (-nx * LOGO_EJECT_IMPULSE) (-ny * LOGO_EJECT_IMPULSE)
    { l1 with bumpCount := 0, bumpThreshold := drawThreshold threshR }
  else res.2

end LogoLetter

/-! ## Specification predicates -/

/-- Range invariant on a gene map: every stored entry names a
registered gene and its value lies within that gene's `[min, max]`. -/
def GenesInRange (l : List (String × ℚ)) : Prop :=
  ∀ p ∈ l, ∃ def_, GENE_DEFS p.1 = some def_ ∧ def_.min ≤ p.2 ∧ p.2 ≤ def_.max

/-- Range invariant on a trait-set. -/
def DNA.InRange (d : DNA) : Prop := GenesInRange d.genes

/-- Per-entry action of `deserialise`, used to characterise its output:
an unknown name yields nothing, a known one its clamped entry. -/
def DNA.deserialiseEntry (p : String × ℚ) : Option (String × ℚ) :=
  (GENE_DEFS p.1).map (fun def_ => (p.1, max def_.min (min def_.max p.2)))

/-! ## Witness data -/

/-- Constant-valued random oracle for witnesses. -/
def rndHalf : DNA.ReproduceRand :=
  ⟨fun _ => 1 / 2, fun _ => 1 / 2, 1 / 2, 1 / 2, 1 / 2, 1 / 2⟩

/-- Concrete letter used by the C2 witness: one bump away from its
threshold. -/
def letterC2 : LogoLetter :=
  ⟨0, 0, 0, 0, 0, false, 1000, 5, 1000, true⟩

/-- Concrete parent cell used by the C10 witness. -/
noncomputable def parentC10 : Entity :=
  { x := 500, y := 500, vx := 0.8, vy := 0, entityKey := "cell", alive := true,
    dying := false, mounted := true, infected := false, divisionTimer := 0,
    dna := ⟨[]⟩ }

/-- Virus entity used by the C3 theorems. -/
noncomputable def virusC3 : Entity :=
  { x := 0, y := 0, vx := 0, vy := 0, entityKey := "virus-filled", alive := true,
    dying := false, mounted := true, infected := true, divisionTimer := -1,
    dna := ⟨[]⟩ }

/-- Fully shielded target moving at exactly the 0.01 speed threshold,
used by the C3 counterexample. -/
noncomputable def targetC3 : Entity :=
  { x := 24, y := 0, vx := 1 / 100, vy := 0, entityKey := "cell", alive := true,
    dying := false, mounted := true, infected := false, divisionTimer := 5,
    dna := ⟨[("shield", 1)]⟩ }

/-- Fully shielded target moving at unit speed, used by the C3
witness. -/
noncomputable def targetC3fast : Entity :=
  { x := 24, y := 0, vx := 1, vy := 0, entityKey := "cell", alive := true,
    dying := false, mounted := true, infected := false, divisionTimer := 5,
    dna := ⟨[("shield", 1)]⟩ }

/-- Entity one tick away from penetrating the left viewport edge, used
by the C1 theorems. -/
noncomputable def eC1 : Entity :=
  { x := 2, y := 100, vx := -(1 / 20), vy := 0, entityKey := "cell",
    alive := true, dying := false, mounted := true, infected := false,
    divisionTimer := 5, dna := ⟨[]⟩ }

/-- Non-dividing filler entity used by the C8 witness. -/
noncomputable def dummyC8 : Entity :=
  { x := 0, y := 0, vx := 0, vy := 0, entityKey := "database", alive := true,
    dying := false, mounted := true, infected := false, divisionTimer := -1,
    dna := ⟨[]⟩ }

/-- Cell whose division countdown has reached zero, used by the C8
witness. -/
noncomputable def readyC8 : Entity :=
  { x := 300, y := 300, vx := 0, vy := 0, entityKey := "cell", alive := true,
    dying := false, mounted := true, infected := false, divisionTimer := 0,
    dna := ⟨[("division_rate", 1)]⟩ }

/-- Population of 49 (`MAX_POPULATION − 1`) with one ready cell. -/
noncomputable def ents49 : List Entity := List.replicate 48 dummyC8 ++ [readyC8]

/-- Population at the cap with a ready cell present. -/
noncomputable def ents50 : List Entity := List.replicate 49 dummyC8 ++ [readyC8]

/-- Constant division oracle used by the C8 witness. -/
def rndC8 : ℕ → DivisionRand := fun _ => ⟨1 / 2, ⟨1 / 2, rndHalf⟩⟩

/-- First entity of the overlapping pair used by the C7 witness. -/
noncomputable def aC7 : Entity :=
  { x := 100, y := 100, vx := 1, vy := 0, entityKey := "cell", alive := true,
    dying := false, mounted := true, infected := false, divisionTimer := 5,
    dna := ⟨[]⟩ }

/-- Second entity of the overlapping pair used by the C7 witness, at
centre distance 5 from the first. -/
noncomputable def bC7 : Entity :=
  { x := 103, y := 104, vx := 0, vy := 0, entityKey := "database", alive := true,
    dying := false, mounted := true, infected := false, divisionTimer := -1,
    dna := ⟨[]⟩ }

/-! ## Theorems -/

/-- C9: for every gene name that is neither active in the trait-set nor
present in the gene registry, `DNA.get` returns exactly 0, so `get` is
total over arbitrary string inputs. -/
theorem dna_get_unknown_gene (d : DNA) (g : String)
    (hactive : d.has g = false) (hreg : GENE_DEFS g = none) :
    d.get g = 0 := by
  have hall : ∀ p ∈ d.genes, ¬(p.1 == g) = true := by
    intro p hp
    intro hpg
    have : d.genes.any (fun p => p.1 == g) = true := List.any_of_mem hp hpg
    rw [DNA.has, JsMap.has, this] at hactive
    exact Bool.noConfusion hactive
  have hfind : d.genes.find? (fun p => p.1 == g) = none :=
    List.find?_eq_none.mpr hall
  simp [DNA.get, JsMap.find, hfind, hreg]

/-- C9 witness: `get` on an empty trait-set at an unregistered name. -/
theorem dna_get_unknown_gene_witness : DNA.empty.get "nonexistent" = 0 :=
  dna_get_unknown_gene DNA.empty "nonexistent" (by decide) (by decide)

/-- C4: `reproduce(0, pool)` returns a trait-set identical to the
parent's for every gene pool and every outcome of the random stream —
with mutation rate 0 none of the drift, emergence or silencing checks
can pass. -/
theorem reproduce_zero_rate_id (d : DNA) (pool : String)
    (rnd : DNA.ReproduceRand) (hv : rnd.Valid) :
    d.reproduce 0 pool rnd = d := by
  obtain ⟨hdc, _, hec, _, hsc, _⟩ := hv
  have hdrift : DNA.driftStep d.genes 0 rnd = d.genes := by
    rw [DNA.driftStep]
    have : ∀ p : String × ℚ,
        (if rnd.driftCheck p.1 < (0 : ℚ) then
          match GENE_DEFS p.1 with
          | none => p
          | some def_ =>
            let drift := (def_.max - def_.min) * 0.15 * (rnd.driftAmt p.1 * 2 - 1)
            (p.1, max def_.min (min def_.max (p.2 + drift)))
        else p) = p := by
      intro p
      rw [if_neg (not_lt.mpr (hdc p.1).1)]
    simp only [this, List.map_id']
  have hemerge : DNA.emergeStep d.genes 0 pool rnd = d.genes := by
    rw [DNA.emergeStep, if_neg]
    rw [show (0 : ℚ) * 0.4 = 0 by norm_num]
    exact not_lt.mpr hec.1
  have hsilence : DNA.silenceStep d.genes 0 rnd = d.genes := by
    rw [DNA.silenceStep, if_neg]
    intro hcond
    rw [Bool.and_eq_true] at hcond
    have := of_decide_eq_true hcond.2
    rw [show (0 : ℚ) * 0.15 = 0 by norm_num] at this
    exact absurd this (not_lt.mpr hsc.1)
  rw [DNA.reproduce, hdrift, hemerge, hsilence]

/-- C4 witness: a one-gene trait-set reproduced at rate 0. -/
theorem reproduce_zero_rate_id_witness :
    DNA.reproduce ⟨[("speed", 1)]⟩ 0 "cell" rndHalf = ⟨[("speed", 1)]⟩ :=
  reproduce_zero_rate_id ⟨[("speed", 1)]⟩ "cell" rndHalf
    ⟨fun _ => ⟨by norm_num [rndHalf], by norm_num [rndHalf]⟩,
     fun _ => ⟨by norm_num [rndHalf], by norm_num [rndHalf]⟩,
     ⟨by norm_num [rndHalf], by norm_num [rndHalf]⟩,
     ⟨by norm_num [rndHalf], by norm_num [rndHalf]⟩,
     ⟨by norm_num [rndHalf], by norm_num [rndHalf]⟩,
     ⟨by norm_num [rndHalf], by norm_num [rndHalf]⟩⟩

open DEFAULTS in
/-- C2: a logo letter transitions to Ejected exactly when, on a bump
while not already ejected, the incremented cycle bump counter strictly
exceeds the current threshold (the triggering hit is the
`threshold + 1`-th bump); immediately after ejection the cycle counter
is 0, the velocity is the outward impulse `-n × LOGO_EJECT_IMPULSE`
along the collision normal, and the fresh threshold lies within the
configured min/max range. -/
theorem logo_letter_ejection (l : LogoLetter) (nx ny : ℝ) (r : ℚ)
    (h0 : 0 ≤ r) (h1 : r < 1) :
    ((l.ejected = false ∧ (LogoLetter.letterBumpStep l nx ny r).ejected = true) ↔
      (l.ejected = false ∧ (l.bumpCount : ℤ) + 1 > l.bumpThreshold)) ∧
    (l.ejected = false → (l.bumpCount : ℤ) + 1 > l.bumpThreshold →
      (LogoLetter.letterBumpStep l nx ny r).bumpCount = 0 ∧
      (LogoLetter.letterBumpStep l nx ny r).vx = -nx * LOGO_EJECT_IMPULSE ∧
      (LogoLetter.letterBumpStep l nx ny r).vy = -ny * LOGO_EJECT_IMPULSE ∧
      LOGO_BUMP_THRESHOLD_MIN ≤ (LogoLetter.letterBumpStep l nx ny r).bumpThreshold ∧
      (LogoLetter.letterBumpStep l nx ny r).bumpThreshold ≤ LOGO_BUMP_THRESHOLD_MAX) := by
  have hthresh :
      LOGO_BUMP_THRESHOLD_MIN ≤ LogoLetter.drawThreshold r ∧
      LogoLetter.drawThreshold r ≤ LOGO_BUMP_THRESHOLD_MAX := by
    rw [LogoLetter.drawThreshold]
    constructor
    · have : (0 : ℤ) ≤ ⌊r * ((LOGO_BUMP_THRESHOLD_MAX : ℚ) - (LOGO_BUMP_THRESHOLD_MIN : ℚ))⌋ := by
        apply Int.floor_nonneg.mpr
        apply mul_nonneg h0
        rw [LOGO_BUMP_THRESHOLD_MAX, LOGO_BUMP_THRESHOLD_MIN]
        norm_num
      omega
    · have : ⌊r * ((LOGO_BUMP_THRESHOLD_MAX : ℚ) - (LOGO_BUMP_THRESHOLD_MIN : ℚ))⌋ < 200 := by
        apply Int.floor_lt.mpr
        rw [LOGO_BUMP_THRESHOLD_MAX, LOGO_BUMP_THRESHOLD_MIN]
        push_cast
        nlinarith
      rw [LOGO_BUMP_THRESHOLD_MIN, LOGO_BUMP_THRESHOLD_MAX] at *
      omega
  by_cases hej : l.ejected
  · constructor
    · constructor
      · rintro ⟨hfalse, _⟩
        exact absurd hej (by simp [hfalse])
      · rintro ⟨hfalse, _⟩
        exact absurd hej (by simp [hfalse])
    · intro hfalse
      exact absurd hej (by simp [hfalse])
  · rw [Bool.not_eq_true] at hej
    by_cases hcnt : (l.bumpCount : ℤ) + 1 > l.bumpThreshold
    · have hstep : LogoLetter.letterBumpStep l nx ny r =
          { LogoLetter.eject
              { l with bumpCount := l.bumpCount + 1, totalHits := l.totalHits + 1 }
              (-nx * LOGO_EJECT_IMPULSE) (-ny * LOGO_EJECT_IMPULSE) with
            bumpCount := 0, bumpThreshold := LogoLetter.drawThreshold r } := by
        rw [LogoLetter.letterBumpStep, LogoLetter.onBump]
        rw [if_pos]
        simp only [hej, Bool.not_false, Bool.true_and]
        apply decide_eq_true
        push_cast
        omega
      refine ⟨?_, ?_⟩
      · simp [hstep, hej, hcnt, LogoLetter.eject]
      · intro _ _
        simp [hstep, LogoLetter.eject, hthresh.1, hthresh.2]
    · have hstep : LogoLetter.letterBumpStep l nx ny r =
          { l with bumpCount := l.bumpCount + 1, totalHits := l.totalHits + 1 } := by
        rw [LogoLetter.letterBumpStep, LogoLetter.onBump]
        rw [if_neg]
        simp only [hej, Bool.not_false, Bool.true_and]
        intro hdec
        have := of_decide_eq_true hdec
        push_cast at this
        omega
      constructor
      · constructor
        · rintro ⟨_, hejd⟩
          rw [hstep] at hejd
          simp [hej] at hejd
        · rintro ⟨_, hgt⟩
          exact absurd hgt hcnt
      · intro _ hgt
        exact absurd hgt hcnt

open DEFAULTS in
/-- C2 witness: the 1001st bump of a letter with threshold 1000 ejects
it with the outward impulse and a fresh in-range threshold. -/
theorem logo_letter_ejection_witness :
    (LogoLetter.letterBumpStep letterC2 1 0 (1 / 2)).bumpCount = 0 ∧
    (LogoLetter.letterBumpStep letterC2 1 0 (1 / 2)).vx = -1 * LOGO_EJECT_IMPULSE ∧
    (LogoLetter.letterBumpStep letterC2 1 0 (1 / 2)).vy = -0 * LOGO_EJECT_IMPULSE ∧
    LOGO_BUMP_THRESHOLD_MIN ≤ (LogoLetter.letterBumpStep letterC2 1 0 (1 / 2)).bumpThreshold ∧
    (LogoLetter.letterBumpStep letterC2 1 0 (1 / 2)).bumpThreshold ≤ LOGO_BUMP_THRESHOLD_MAX :=
  (logo_letter_ejection letterC2 1 0 (1 / 2) (by norm_num) (by norm_num)).2
    rfl (by decide)

/-! ### Helper lemmas on the gene registry and JS maps -/

/-- Every registered gene has a well-ordered range. -/
theorem gene_defs_min_le_max (g : String) (def_ : GeneDef)
    (h : GENE_DEFS g = some def_) : def_.min ≤ def_.max := by
  rw [GENE_DEFS] at h
  split_ifs at h <;> (cases h; norm_num)

/-- Values clamped as in drift/deserialise lie within the range. -/
theorem clamp_bounds (def_ : GeneDef) (v : ℚ) (h : def_.min ≤ def_.max) :
    def_.min ≤ max def_.min (min def_.max v) ∧
    max def_.min (min def_.max v) ≤ def_.max :=
  ⟨le_max_left _ _, max_le h (min_le_left _ _)⟩

/-- Membership after `Map.set`: an entry is old or is the written one. -/
theorem mem_jsmap_set (l : List (String × ℚ)) (k : String) (v : ℚ)
    (p : String × ℚ) (hp : p ∈ JsMap.set l k v) : p ∈ l ∨ p = (k, v) := by
  rw [JsMap.set] at hp
  split_ifs at hp
  · obtain ⟨q, hq, hfq⟩ := List.mem_map.mp hp
    by_cases hk : q.1 == k
    · right
      rw [if_pos hk] at hfq
      exact hfq.symm
    · left
      rw [if_neg hk] at hfq
      exact hfq ▸ hq
  · rcases List.mem_append.mp hp with h1 | h2
    · exact Or.inl h1
    · exact Or.inr (List.mem_singleton.mp h2)

/-- Membership after `Map.delete` implies prior membership. -/
theorem mem_jsmap_del (l : List (String × ℚ)) (k : String)
    (p : String × ℚ) (hp : p ∈ JsMap.del l k) : p ∈ l :=
  List.mem_of_mem_filter hp

/-- `Map.set` on an absent key appends the entry. -/
theorem jsmap_set_of_not_has (l : List (String × ℚ)) (k : String) (v : ℚ)
    (h : JsMap.has l k = false) : JsMap.set l k v = l ++ [(k, v)] := by
  rw [JsMap.set, h]
  rfl

/-- `Map.has` distributes over list append. -/
theorem jsmap_has_append (l1 l2 : List (String × ℚ)) (k : String) :
    JsMap.has (l1 ++ l2) k = (JsMap.has l1 k || JsMap.has l2 k) := by
  simp [JsMap.has, List.any_append]

/-! ### Range preservation through the mutation operations -/

/-- Drift keeps every stored value in range. -/
theorem driftStep_inRange (genes : List (String × ℚ)) (rate : ℚ)
    (rnd : DNA.ReproduceRand) (h : GenesInRange genes) :
    GenesInRange (DNA.driftStep genes rate rnd) := by
  intro p' hp'
  rw [DNA.driftStep] at hp'
  obtain ⟨p, hp, hfp⟩ := List.mem_map.mp hp'
  obtain ⟨def_, hdef, hmin, hmax⟩ := h p hp
  by_cases hc : rnd.driftCheck p.1 < rate
  · rw [if_pos hc, hdef] at hfp
    subst hfp
    refine ⟨def_, hdef, ?_, ?_⟩
    · exact (clamp_bounds def_ _ (gene_defs_min_le_max _ _ hdef)).1
    · exact (clamp_bounds def_ _ (gene_defs_min_le_max _ _ hdef)).2
  · rw [if_neg hc] at hfp
    subst hfp
    exact ⟨def_, hdef, hmin, hmax⟩

/-- Gene seeding keeps the map in range. -/
theorem emergeApply_inRange (genes : List (String × ℚ)) (key : String)
    (h : GenesInRange genes) : GenesInRange (DNA.emergeApply genes key) := by
  rw [DNA.emergeApply]
  cases hdef : GENE_DEFS key with
  | none => exact h
  | some def_ =>
    intro p hp
    rcases mem_jsmap_set _ _ _ _ hp with hold | hnew
    · exact h p hold
    · subst hnew
      have hrange := gene_defs_min_le_max _ _ hdef
      refine ⟨def_, hdef, by nlinarith, by nlinarith⟩

/-- Emergence seeds a registered gene at an in-range value. -/
theorem emergeStep_inRange (genes : List (String × ℚ)) (rate : ℚ)
    (pool : String) (rnd : DNA.ReproduceRand) (h : GenesInRange genes) :
    GenesInRange (DNA.emergeStep genes rate pool rnd) := by
  rw [DNA.emergeStep]
  split_ifs with h1
  · dsimp only
    split_ifs with h2
    · exact emergeApply_inRange _ _ h
    · exact h
  · exact h

/-- Silencing only removes entries. -/
theorem silenceStep_inRange (genes : List (String × ℚ)) (rate : ℚ)
    (rnd : DNA.ReproduceRand) (h : GenesInRange genes) :
    GenesInRange (DNA.silenceStep genes rate rnd) := by
  rw [DNA.silenceStep]
  split_ifs with h1
  · intro p hp
    exact h p (mem_jsmap_del _ _ _ hp)
  · exact h

/-- Every accumulator state of the `deserialise` fold is in range. -/
theorem deserialise_fold_inRange :
    ∀ (obj acc : List (String × ℚ)), GenesInRange acc →
      GenesInRange (obj.foldl DNA.deserialiseStep acc)
  | [], acc, h => h
  | p :: rest, acc, h => by
    rw [List.foldl_cons]
    apply deserialise_fold_inRange rest
    rw [DNA.deserialiseStep]
    cases hdef : GENE_DEFS p.1 with
    | none => exact h
    | some def_ =>
      intro q hq
      rcases mem_jsmap_set _ _ _ _ hq with hold | hnew
      · exact h q hold
      · subst hnew
        have hrange := gene_defs_min_le_max _ _ hdef
        exact ⟨def_, hdef, (clamp_bounds def_ _ hrange).1, (clamp_bounds def_ _ hrange).2⟩

/-- C5: starting from a trait-set whose stored values lie in their
genes' ranges, the mutation operations — drift and emergence inside
`reproduce` (any rate, any random outcomes, silencing included) and
`deserialise` on any input object — only ever produce stored values
within `[gene.min, gene.max]`. -/
theorem mutation_range_invariant (d : DNA) (rate : ℚ) (pool : String)
    (rnd : DNA.ReproduceRand) (obj : List (String × ℚ)) (hd : d.InRange) :
    (d.reproduce rate pool rnd).InRange ∧ (DNA.deserialise obj).InRange := by
  constructor
  · rw [DNA.InRange, DNA.reproduce]
    exact silenceStep_inRange _ _ _
      (emergeStep_inRange _ _ _ _ (driftStep_inRange _ _ _ hd))
  · rw [DNA.InRange, DNA.deserialise]
    exact deserialise_fold_inRange obj [] (by intro p hp; cases hp)

/-- C5 witness: a full-rate reproduction of a one-gene trait-set and a
deserialisation of an object with an unknown key and an out-of-range
value. -/
theorem mutation_range_invariant_witness :
    (DNA.reproduce ⟨[("speed", 1)]⟩ 1 "cell" rndHalf).InRange ∧
    (DNA.deserialise [("junk", 5), ("speed", 99)]).InRange := by
  apply mutation_range_invariant ⟨[("speed", 1)]⟩ 1 "cell" rndHalf
    [("junk", 5), ("speed", 99)]
  intro p hp
  rw [List.mem_singleton] at hp
  subst hp
  exact ⟨⟨0.7, 1.5, 1.0, 40, 0, "cell"⟩, by simp [GENE_DEFS], by norm_num, by norm_num⟩

/-! ### Characterisation of the `deserialise` fold -/

/-- With pairwise-distinct keys not yet in the accumulator (the JS
object guarantees key uniqueness), the `deserialise` fold appends the
clamped known entries in order. -/
theorem deserialise_fold_filterMap :
    ∀ (obj acc : List (String × ℚ)),
      (∀ k ∈ obj.map Prod.fst, JsMap.has acc k = false) →
      (obj.map Prod.fst).Nodup →
      obj.foldl DNA.deserialiseStep acc = acc ++ obj.filterMap DNA.deserialiseEntry
  | [], acc, _, _ => by simp
  | p :: rest, acc, hhas, hnd => by
    rw [List.foldl_cons]
    have hk : JsMap.has acc p.1 = false := hhas p.1 (by simp)
    have hndrest : (rest.map Prod.fst).Nodup := (List.nodup_cons.mp (by simpa using hnd)).2
    have hhead : p.1 ∉ rest.map Prod.fst := (List.nodup_cons.mp (by simpa using hnd)).1
    cases hdef : GENE_DEFS p.1 with
    | none =>
      have hstep : DNA.deserialiseStep acc p = acc := by
        rw [DNA.deserialiseStep, hdef]
      have hentry : DNA.deserialiseEntry p = none := by
        rw [DNA.deserialiseEntry, hdef]
        rfl
      rw [hstep,
        deserialise_fold_filterMap rest acc (fun k hkm => hhas k (by simp [hkm])) hndrest,
        List.filterMap_cons_none hentry]
    | some def_ =>
      have hstep : DNA.deserialiseStep acc p =
          acc ++ [(p.1, max def_.min (min def_.max p.2))] := by
        rw [DNA.deserialiseStep, hdef]
        exact jsmap_set_of_not_has _ _ _ hk
      have hentry : DNA.deserialiseEntry p =
          some (p.1, max def_.min (min def_.max p.2)) := by
        rw [DNA.deserialiseEntry, hdef]
        rfl
      rw [hstep, deserialise_fold_filterMap rest _ ?_ hndrest]
      · rw [List.filterMap_cons_some hentry, List.append_assoc,
          List.singleton_append]
      · intro k hkm
        rw [jsmap_has_append, hhas k (by simp [hkm]), Bool.false_or]
        have hne : ¬(p.1 == k) := by
          intro hpk
          exact hhead (by rw [show p.1 = k from by simpa using hpk]; exact hkm)
        simp [JsMap.has, hne]

/-- A gene map already in range is a fixed point of the per-entry
deserialise action. -/
theorem filterMap_deserialiseEntry_self :
    ∀ l : List (String × ℚ), GenesInRange l →
      l.filterMap DNA.deserialiseEntry = l
  | [], _ => rfl
  | p :: rest, h => by
    obtain ⟨def_, hdef, hmin, hmax⟩ := h p (by simp)
    have hentry : DNA.deserialiseEntry p = some p := by
      rw [DNA.deserialiseEntry, hdef, Option.map_some']
      rw [min_eq_right hmax, max_eq_right hmin]
    rw [List.filterMap_cons_some hentry,
      filterMap_deserialiseEntry_self rest (fun q hq => h q (by simp [hq]))]

/-- C6: `deserialise ∘ serialise` is the identity on trait-sets whose
stored values lie in range, and on an arbitrary serialized object
`deserialise` keeps exactly the registered gene names with their
values clamped into `[min, max]` (unknown names are dropped), never
failing. -/
theorem dna_serialise_roundtrip (d : DNA)
    (hnd : (d.genes.map Prod.fst).Nodup) (hr : d.InRange)
    (obj : List (String × ℚ)) (hobj : (obj.map Prod.fst).Nodup) :
    DNA.deserialise d.serialise = d ∧
    (DNA.deserialise obj).genes = obj.filterMap DNA.deserialiseEntry ∧
    (∀ g, GENE_DEFS g = none → (DNA.deserialise obj).has g = false) := by
  have hmain : ∀ o : List (String × ℚ), (o.map Prod.fst).Nodup →
      (DNA.deserialise o).genes = o.filterMap DNA.deserialiseEntry := by
    intro o ho
    rw [DNA.deserialise]
    rw [deserialise_fold_filterMap o [] (fun k _ => rfl) ho, List.nil_append]
  refine ⟨?_, hmain obj hobj, ?_⟩
  · have hgenes : (DNA.deserialise d.serialise).genes = d.genes := by
      rw [DNA.serialise, hmain d.genes hnd, filterMap_deserialiseEntry_self d.genes hr]
    cases hd : DNA.deserialise d.serialise
    cases d
    simpa [hd] using hgenes
  · intro g hg
    rw [DNA.has, JsMap.has, hmain obj hobj]
    rw [List.any_eq_false]
    intro p hp
    obtain ⟨q, _, hfq⟩ := List.mem_filterMap.mp hp
    rw [DNA.deserialiseEntry] at hfq
    cases hq : GENE_DEFS q.1 with
    | none => rw [hq] at hfq; cases hfq
    | some def_ =>
      rw [hq, Option.map_some', Option.some_inj] at hfq
      intro hpg
      rw [← hfq] at hpg
      have : q.1 = g := by simpa using hpg
      rw [this, hg] at hq
      cases hq

/-- Two-gene in-range trait-set used by the C6 witness. -/
def dnaC6 : DNA := ⟨[("speed", 1), ("shield", 1 / 2)]⟩

/-- C6 witness: round-trip identity on a two-gene trait-set, and the
drop/clamp characterisation on an object with an unknown key and an
out-of-range value. -/
theorem dna_serialise_roundtrip_witness :
    DNA.deserialise dnaC6.serialise = dnaC6 ∧
    (DNA.deserialise [("junk", 3), ("lethality", 99)]).genes =
      [("junk", (3 : ℚ)), ("lethality", 99)].filterMap DNA.deserialiseEntry ∧
    (∀ g, GENE_DEFS g = none →
      (DNA.deserialise [("junk", 3), ("lethality", 99)]).has g = false) := by
  have hr : DNA.InRange dnaC6 := by
    intro p hp
    have hp' : p = ("speed", (1 : ℚ)) ∨ p = ("shield", (1 / 2 : ℚ)) := by
      simpa [dnaC6] using hp
    rcases hp' with rfl | rfl
    · exact ⟨⟨0.7, 1.5, 1.0, 40, 0, "cell"⟩, by simp [GENE_DEFS], by norm_num,
        by norm_num⟩
    · exact ⟨⟨0.0, 1.0, 0.0, 30, 12, "cell"⟩, by simp [GENE_DEFS], by norm_num,
        by norm_num⟩
  exact dna_serialise_roundtrip dnaC6 (by decide) hr [("junk", 3), ("lethality", 99)]
    (by decide)

open DEFAULTS in
/-- C10: the offspring config returned by `Entity.divide` has its
position clamped into the viewport — `x ∈ [ICON_HALF, vw − ICON_HALF]`
and `y ∈ [ICON_HALF, vh − ICON_HALF]` for any viewport at least one
icon wide — even when the radial offset from the parent would fall
outside, and its launch velocity has magnitude exactly `BASE_SPEED`. -/
theorem divide_offspring_clamped (e : Entity) (vp : Viewport)
    (r : Entity.DivideRand) (hw : 2 * ICON_HALF ≤ vp.vw)
    (hh : 2 * ICON_HALF ≤ vp.vh) :
    ICON_HALF ≤ (e.divide vp r).x ∧ (e.divide vp r).x ≤ vp.vw - ICON_HALF ∧
    ICON_HALF ≤ (e.divide vp r).y ∧ (e.divide vp r).y ≤ vp.vh - ICON_HALF ∧
    Real.sqrt ((e.divide vp r).vx ^ 2 + (e.divide vp r).vy ^ 2) = BASE_SPEED := by
  have hx : (e.divide vp r).x = max ICON_HALF (min (vp.vw - ICON_HALF)
      (e.x + Real.cos ((r.angleR : ℝ) * Real.pi * 2) * (COLLISION_DIAMETER * 0.65))) :=
    rfl
  have hy : (e.divide vp r).y = max ICON_HALF (min (vp.vh - ICON_HALF)
      (e.y + Real.sin ((r.angleR : ℝ) * Real.pi * 2) * (COLLISION_DIAMETER * 0.65))) :=
    rfl
  have hvx : (e.divide vp r).vx = Real.cos ((r.angleR : ℝ) * Real.pi * 2) * BASE_SPEED :=
    rfl
  have hvy : (e.divide vp r).vy = Real.sin ((r.angleR : ℝ) * Real.pi * 2) * BASE_SPEED :=
    rfl
  have hIv : ICON_HALF ≤ vp.vw - ICON_HALF := by linarith
  have hIh : ICON_HALF ≤ vp.vh - ICON_HALF := by linarith
  refine ⟨?_, ?_, ?_, ?_, ?_⟩
  · rw [hx]; exact le_max_left _ _
  · rw [hx]; exact max_le hIv (min_le_left _ _)
  · rw [hy]; exact le_max_left _ _
  · rw [hy]; exact max_le hIh (min_le_left _ _)
  · rw [hvx, hvy]
    have hsq : (Real.cos ((r.angleR : ℝ) * Real.pi * 2) * BASE_SPEED) ^ 2 +
        (Real.sin ((r.angleR : ℝ) * Real.pi * 2) * BASE_SPEED) ^ 2 = BASE_SPEED ^ 2 := by
      have := Real.sin_sq_add_cos_sq ((r.angleR : ℝ) * Real.pi * 2)
      nlinarith [this]
    rw [hsq, Real.sqrt_sq (by rw [BASE_SPEED]; norm_num)]

open DEFAULTS in
/-- C10 witness: a division from the viewport centre at angle 0. -/
theorem divide_offspring_clamped_witness :
    ICON_HALF ≤ (parentC10.divide ⟨1000, 800⟩ ⟨0, rndHalf⟩).x ∧
    (parentC10.divide ⟨1000, 800⟩ ⟨0, rndHalf⟩).x ≤ (1000 : ℝ) - ICON_HALF ∧
    ICON_HALF ≤ (parentC10.divide ⟨1000, 800⟩ ⟨0, rndHalf⟩).y ∧
    (parentC10.divide ⟨1000, 800⟩ ⟨0, rndHalf⟩).y ≤ (800 : ℝ) - ICON_HALF ∧
    Real.sqrt ((parentC10.divide ⟨1000, 800⟩ ⟨0, rndHalf⟩).vx ^ 2 +
      (parentC10.divide ⟨1000, 800⟩ ⟨0, rndHalf⟩).vy ^ 2) = BASE_SPEED :=
  divide_offspring_clamped parentC10 ⟨1000, 800⟩ ⟨0, rndHalf⟩
    (by rw [ICON_HALF]; norm_num) (by rw [ICON_HALF]; norm_num)

/-- The angle-normalisation loops leave 0 unchanged. -/
theorem normalizeAngle_zero : normalizeAngle 0 = 0 := by
  rw [normalizeAngle, if_neg (not_lt.mpr Real.pi_pos.le),
    if_neg (not_lt.mpr (neg_nonpos.mpr Real.pi_pos.le))]

open DEFAULTS in
/-- C3 (amended): for a virus-vs-target contact where the target's
shield trait is 1.0 and the target moves faster than the `0.01` speed
guard of the source, with the virus approaching from directly ahead of
the target's motion vector (angle delta 0), the kill branch is never
taken, for every outcome of the kill-chance roll. -/
theorem virus_shield_blocks_frontal (killChance : ℚ) (virus target : Entity)
    (roll : ℚ) (hshield : target.dna.get "shield" = 1)
    (hspd : 0.01 < Real.sqrt (target.vx ^ 2 + target.vy ^ 2)) :
    resolveVirusKillDecision killChance virus target
      (atan2 target.vy target.vx) roll = false := by
  rw [resolveVirusKillDecision]
  dsimp only
  rw [hshield]
  rw [if_pos (by norm_num : (0 : ℝ) < ((1 : ℚ) : ℝ))]
  rw [if_pos hspd]
  rw [if_pos]
  rw [sub_self, normalizeAngle_zero, abs_zero]
  push_cast
  rw [one_mul]
  positivity

/-- C3 witness: the frontal attack on a fast fully-shielded target is
blocked at kill roll 0. -/
theorem virus_shield_blocks_frontal_witness :
    resolveVirusKillDecision DEFAULTS.VIRUS_KILL_CHANCE virusC3 targetC3fast
      (atan2 targetC3fast.vy targetC3fast.vx) 0 = false :=
  virus_shield_blocks_frontal DEFAULTS.VIRUS_KILL_CHANCE virusC3 targetC3fast 0
    (by decide)
    (by
      have hvx : targetC3fast.vx = 1 := rfl
      have hvy : targetC3fast.vy = 0 := rfl
      rw [hvx, hvy]
      rw [show (1 : ℝ) ^ 2 + 0 ^ 2 = 1 by norm_num, Real.sqrt_one]
      norm_num)

open DEFAULTS in
/-- C3 counterexample: a target with shield 1.0 and nonzero velocity
`(0.01, 0)` — at, not above, the source's `spd > 0.01` guard — is
attacked from directly ahead, yet the kill branch is reached at kill
roll 0: "nonzero velocity" is not sufficient for shield blocking. -/
theorem virus_shield_slow_target_killed :
    targetC3.dna.get "shield" = 1 ∧
    ¬(targetC3.vx = 0 ∧ targetC3.vy = 0) ∧
    resolveVirusKillDecision VIRUS_KILL_CHANCE virusC3 targetC3
      (atan2 targetC3.vy targetC3.vx) 0 = true := by
  refine ⟨by decide, ?_, ?_⟩
  · intro hc
    have hvx : targetC3.vx = 1 / 100 := rfl
    rw [hvx] at hc
    norm_num at hc
  · rw [resolveVirusKillDecision]
    dsimp only
    rw [show targetC3.dna.get "shield" = 1 from by decide]
    rw [if_pos (by norm_num : (0 : ℝ) < ((1 : ℚ) : ℝ))]
    rw [if_neg]
    · rw [decide_eq_true_eq]
      have hres : targetC3.dna.get "resistance" = (0.0 : ℚ) := rfl
      have hleth : virusC3.dna.get "lethality" = (0.0 : ℚ) := rfl
      rw [hres, hleth, VIRUS_KILL_CHANCE]
      norm_num
    · have hvx : targetC3.vx = 1 / 100 := rfl
      have hvy : targetC3.vy = 0 := rfl
      rw [hvx, hvy]
      rw [show ((1 : ℝ) / 100) ^ 2 + 0 ^ 2 = (1 / 100) ^ 2 by norm_num,
        Real.sqrt_sq (by norm_num : (0 : ℝ) ≤ 1 / 100)]
      norm_num

/-! ### Position preservation through the per-pair interaction stages -/

/-- `resetDivision` only touches the countdown. -/
theorem resetDivision_pos (e : Entity) (r : ℚ) :
    (e.resetDivision r).x = e.x ∧ (e.resetDivision r).y = e.y := ⟨rfl, rfl⟩

/-- `infectWith` never moves the entity. -/
theorem infectWith_pos (e : Entity) (n : String) (f : Bool) (d : Option DNA)
    (r : ℚ) : (e.infectWith n f d r).x = e.x ∧ (e.infectWith n f d r).y = e.y := by
  rw [Entity.infectWith]
  split_ifs <;> exact ⟨rfl, rfl⟩

/-- `die` freezes velocity but never moves the entity. -/
theorem die_pos (e : Entity) : e.die.x = e.x ∧ e.die.y = e.y := by
  rw [Entity.die]
  split_ifs <;> exact ⟨rfl, rfl⟩

/-- The virus contact resolution never moves the target. -/
theorem resolveVirusContact_pos (kc : ℚ) (v t : Entity) (ang : ℝ) (roll : ℚ) :
    (resolveVirusContact kc v t ang roll).x = t.x ∧
    (resolveVirusContact kc v t ang roll).y = t.y := by
  rw [resolveVirusContact]
  split_ifs
  · exact die_pos t
  · exact ⟨rfl, rfl⟩

/-- The elastic impulse changes only velocities. -/
theorem impulseStage_pos (a b : Entity) (nx ny : ℝ) :
    (impulseStage a b nx ny).1.x = a.x ∧ (impulseStage a b nx ny).1.y = a.y ∧
    (impulseStage a b nx ny).2.x = b.x ∧ (impulseStage a b nx ny).2.y = b.y := by
  rw [impulseStage]
  try dsimp only
  split_ifs <;> exact ⟨rfl, rfl, rfl, rfl⟩

/-- The bug infection block changes only identity/DNA state. -/
theorem infectionStage_pos (a b : Entity) (r : ℚ) :
    (infectionStage a b r).1.x = a.x ∧ (infectionStage a b r).1.y = a.y ∧
    (infectionStage a b r).2.x = b.x ∧ (infectionStage a b r).2.y = b.y := by
  rw [infectionStage]
  try dsimp only
  split_ifs <;>
    first
    | exact ⟨rfl, rfl, rfl, rfl⟩
    | exact ⟨(infectWith_pos ..).1, (infectWith_pos ..).2, rfl, rfl⟩
    | exact ⟨rfl, rfl, (infectWith_pos ..).1, (infectWith_pos ..).2⟩

/-- The virus kill block changes only lifecycle/velocity state. -/
theorem virusStage_pos (kc : ℚ) (a b : Entity) (nx ny : ℝ) (roll : ℚ) :
    (virusStage kc a b nx ny roll).1.x = a.x ∧
    (virusStage kc a b nx ny roll).1.y = a.y ∧
    (virusStage kc a b nx ny roll).2.x = b.x ∧
    (virusStage kc a b nx ny roll).2.y = b.y := by
  rw [virusStage]
  try dsimp only
  split_ifs <;>
    first
    | exact ⟨rfl, rfl, rfl, rfl⟩
    | exact ⟨rfl, rfl, (resolveVirusContact_pos ..).1, (resolveVirusContact_pos ..).2⟩
    | exact ⟨(resolveVirusContact_pos ..).1, (resolveVirusContact_pos ..).2, rfl, rfl⟩

open DEFAULTS in
/-- C7: for any two overlapping non-bug entities (alive, not dying,
centre distance strictly between 0 and the collision diameter), one
pass of pairwise collision resolution displaces the two entities by
amounts whose magnitudes sum to the original overlap
(`COLLISION_DIAMETER − dist`), and both receive the `onHit`
acknowledgment. -/
theorem collision_displacement_symmetry (killChance : ℚ) (a b : Entity)
    (rnd : PairRand) (ha : a.alive = true) (hb : b.alive = true)
    (hda : a.dying = false) (hdb : b.dying = false)
    (hbug_a : a.entityKey ≠ "bug") (hbug_b : b.entityKey ≠ "bug")
    (hdist_pos : 0 < Real.sqrt ((b.x - a.x) ^ 2 + (b.y - a.y) ^ 2))
    (hdist_lt : Real.sqrt ((b.x - a.x) ^ 2 + (b.y - a.y) ^ 2) < COLLISION_DIAMETER) :
    Real.sqrt (((checkCollisionPair killChance a b rnd).a.x - a.x) ^ 2 +
        ((checkCollisionPair killChance a b rnd).a.y - a.y) ^ 2) +
      Real.sqrt (((checkCollisionPair killChance a b rnd).b.x - b.x) ^ 2 +
        ((checkCollisionPair killChance a b rnd).b.y - b.y) ^ 2) =
      COLLISION_DIAMETER - Real.sqrt ((b.x - a.x) ^ 2 + (b.y - a.y) ^ 2) ∧
    (checkCollisionPair killChance a b rnd).aHit = true ∧
    (checkCollisionPair killChance a b rnd).bHit = true := by
  have hguard1 : ¬(¬a.alive = true ∨ ¬b.alive = true ∨ a.dying = true ∨ b.dying = true) := by
    simp [ha, hb, hda, hdb]
  have hguard2 : ¬(COLLISION_DIAMETER ≤ Real.sqrt ((b.x - a.x) ^ 2 + (b.y - a.y) ^ 2) ∨
      Real.sqrt ((b.x - a.x) ^ 2 + (b.y - a.y) ^ 2) = 0) := by
    push_neg
    exact ⟨hdist_lt, ne_of_gt hdist_pos⟩
  have habug : (a.entityKey == "bug") = false := by
    simp [hbug_a]
  have hbbug : (b.entityKey == "bug") = false := by
    simp [hbug_b]
  set dist := Real.sqrt ((b.x - a.x) ^ 2 + (b.y - a.y) ^ 2) with hdist
  set nx := (b.x - a.x) / dist with hnx
  set ny := (b.y - a.y) / dist with hny
  set half := (COLLISION_DIAMETER - dist) / 2 with hhalf
  have hres : checkCollisionPair killChance a b rnd =
      ⟨(virusStage killChance
          (infectionStage
            { (impulseStage a b nx ny).1 with
                x := (impulseStage a b nx ny).1.x - half * nx,
                y := (impulseStage a b nx ny).1.y - half * ny }
            { (impulseStage a b nx ny).2 with
                x := (impulseStage a b nx ny).2.x + half * nx,
                y := (impulseStage a b nx ny).2.y + half * ny }
            rnd.cureDivR).1
          (infectionStage
            { (impulseStage a b nx ny).1 with
                x := (impulseStage a b nx ny).1.x - half * nx,
                y := (impulseStage a b nx ny).1.y - half * ny }
            { (impulseStage a b nx ny).2 with
                x := (impulseStage a b nx ny).2.x + half * nx,
                y := (impulseStage a b nx ny).2.y + half * ny }
            rnd.cureDivR).2
          nx ny rnd.killRoll).1,
        (virusStage killChance
          (infectionStage
            { (impulseStage a b nx ny).1 with
                x := (impulseStage a b nx ny).1.x - half * nx,
                y := (impulseStage a b nx ny).1.y - half * ny }
            { (impulseStage a b nx ny).2 with
                x := (impulseStage a b nx ny).2.x + half * nx,
                y := (impulseStage a b nx ny).2.y + half * ny }
            rnd.cureDivR).1
          (infectionStage
            { (impulseStage a b nx ny).1 with
                x := (impulseStage a b nx ny).1.x - half * nx,
                y := (impulseStage a b nx ny).1.y - half * ny }
            { (impulseStage a b nx ny).2 with
                x := (impulseStage a b nx ny).2.x + half * nx,
                y := (impulseStage a b nx ny).2.y + half * ny }
            rnd.cureDivR).2
          nx ny rnd.killRoll).2,
        true, true⟩ := by
    rw [checkCollisionPair, if_neg hguard1]
    dsimp only
    rw [if_neg hguard2]
    try dsimp only
    rw [habug, hbbug]
    rfl
  have hax : (checkCollisionPair killChance a b rnd).a.x = a.x - half * nx := by
    rw [hres]
    dsimp only
    rw [(virusStage_pos ..).1, (infectionStage_pos ..).1]
    dsimp only
    rw [(impulseStage_pos ..).1]
  have hay : (checkCollisionPair killChance a b rnd).a.y = a.y - half * ny := by
    rw [hres]
    dsimp only
    rw [(virusStage_pos ..).2.1, (infectionStage_pos ..).2.1]
    dsimp only
    rw [(impulseStage_pos ..).2.1]
  have hbx : (checkCollisionPair killChance a b rnd).b.x = b.x + half * nx := by
    rw [hres]
    dsimp only
    rw [(virusStage_pos ..).2.2.1, (infectionStage_pos ..).2.2.1]
    dsimp only
    rw [(impulseStage_pos ..).2.2.1]
  have hby : (checkCollisionPair killChance a b rnd).b.y = b.y + half * ny := by
    rw [hres]
    dsimp only
    rw [(virusStage_pos ..).2.2.2, (infectionStage_pos ..).2.2.2]
    dsimp only
    rw [(impulseStage_pos ..).2.2.2]
  have hd2 : dist ^ 2 = (b.x - a.x) ^ 2 + (b.y - a.y) ^ 2 := by
    rw [hdist]
    exact Real.sq_sqrt (by positivity)
  have hdist_ne : dist ≠ 0 := ne_of_gt hdist_pos
  have hhalf_nonneg : 0 ≤ half := by
    rw [hhalf]
    linarith
  have hn2 : (half * nx) ^ 2 + (half * ny) ^ 2 = half ^ 2 := by
    rw [hnx, hny]
    field_simp
    nlinarith [hd2]
  refine ⟨?_, by rw [hres], by rw [hres]⟩
  rw [hax, hay, hbx, hby]
  have e1 : a.x - half * nx - a.x = -(half * nx) := by ring
  have e2 : a.y - half * ny - a.y = -(half * ny) := by ring
  have e3 : b.x + half * nx - b.x = half * nx := by ring
  have e4 : b.y + half * ny - b.y = half * ny := by ring
  rw [e1, e2, e3, e4]
  have hsq1 : (-(half * nx)) ^ 2 + (-(half * ny)) ^ 2 = half ^ 2 := by
    rw [neg_pow, neg_pow]
    simpa using hn2
  rw [hsq1, hn2, Real.sqrt_sq hhalf_nonneg]
  rw [hhalf]
  ring

/-- C7 witness: two overlapping cell-type entities at centre distance
5 (overlap 19). -/
theorem collision_displacement_symmetry_witness :
    Real.sqrt (((checkCollisionPair DEFAULTS.VIRUS_KILL_CHANCE aC7 bC7 ⟨1 / 2, 1 / 2⟩).a.x - aC7.x) ^ 2 +
        ((checkCollisionPair DEFAULTS.VIRUS_KILL_CHANCE aC7 bC7 ⟨1 / 2, 1 / 2⟩).a.y - aC7.y) ^ 2) +
      Real.sqrt (((checkCollisionPair DEFAULTS.VIRUS_KILL_CHANCE aC7 bC7 ⟨1 / 2, 1 / 2⟩).b.x - bC7.x) ^ 2 +
        ((checkCollisionPair DEFAULTS.VIRUS_KILL_CHANCE aC7 bC7 ⟨1 / 2, 1 / 2⟩).b.y - bC7.y) ^ 2) =
      DEFAULTS.COLLISION_DIAMETER - Real.sqrt ((bC7.x - aC7.x) ^ 2 + (bC7.y - aC7.y) ^ 2) ∧
    (checkCollisionPair DEFAULTS.VIRUS_KILL_CHANCE aC7 bC7 ⟨1 / 2, 1 / 2⟩).aHit = true ∧
    (checkCollisionPair DEFAULTS.VIRUS_KILL_CHANCE aC7 bC7 ⟨1 / 2, 1 / 2⟩).bHit = true := by
  have hd : Real.sqrt ((bC7.x - aC7.x) ^ 2 + (bC7.y - aC7.y) ^ 2) = 5 := by
    rw [show bC7.x = 103 from rfl, show aC7.x = 100 from rfl,
      show bC7.y = 104 from rfl, show aC7.y = 100 from rfl]
    rw [show ((103 : ℝ) - 100) ^ 2 + ((104 : ℝ) - 100) ^ 2 = 5 ^ 2 by norm_num]
    exact Real.sqrt_sq (by norm_num)
  exact collision_displacement_symmetry DEFAULTS.VIRUS_KILL_CHANCE aC7 bC7
    ⟨1 / 2, 1 / 2⟩ rfl rfl rfl rfl
    (by rw [show aC7.entityKey = "cell" from rfl]; decide)
    (by rw [show bC7.entityKey = "database" from rfl]; decide)
    (by rw [hd]; norm_num)
    (by rw [hd, DEFAULTS.COLLISION_DIAMETER]; norm_num)

/-! ### Edge-bounce lemmas for `Entity.update` -/

/-- Left/top clamp: a position at or beyond the low boundary is set
exactly onto it and the velocity becomes its absolute value, and for a
viewport wider than the icon the high-boundary branch cannot also
fire. -/
theorem bounceAxis_low (pos vel half limit : ℝ) (h1 : pos - half ≤ 0)
    (h2 : half + half < limit) :
    Entity.bounceAxis pos vel half limit = (half, |vel|) := by
  rw [Entity.bounceAxis]
  try dsimp only
  rw [if_pos h1]
  rw [if_neg (not_le.mpr h2)]

/-- Right/bottom clamp: a position at or beyond the high boundary of a
viewport wider than the icon misses the low branch and is clamped onto
the high boundary with negated absolute velocity. -/
theorem bounceAxis_high (pos vel half limit : ℝ) (h1 : limit - half ≤ pos)
    (h2 : half + half < limit) :
    Entity.bounceAxis pos vel half limit = (limit - half, -|vel|) := by
  rw [Entity.bounceAxis]
  try dsimp only
  rw [if_neg (by intro hc; linarith : ¬(pos - half ≤ 0))]
  rw [if_pos (by linarith : pos + half ≥ limit)]

/-- Interior position: neither bounce branch fires. -/
theorem bounceAxis_mid (pos vel half limit : ℝ) (h1 : ¬(pos - half ≤ 0))
    (h2 : ¬(pos + half ≥ limit)) :
    Entity.bounceAxis pos vel half limit = (pos, vel) := by
  rw [Entity.bounceAxis]
  try dsimp only
  rw [if_neg h1]
  rw [if_neg h2]

open DEFAULTS in
/-- The position written by `update` is the bounce-clamped moved
position, for every random outcome (the drift kick touches only
velocity). -/
theorem update_pos (e : Entity) (mult : ℝ) (vp : Viewport)
    (rnd : Entity.UpdateRand) (hm : e.mounted = true) (hal : e.alive = true)
    (hd : e.dying = false) :
    (e.update mult vp rnd).x = (Entity.bounceAxis (e.movedX mult) e.vx ICON_HALF vp.vw).1 ∧
    (e.update mult vp rnd).y = (Entity.bounceAxis (e.movedY mult) e.vy ICON_HALF vp.vh).1 := by
  rw [Entity.update, if_neg (by simp [hm, hal, hd])]
  dsimp only
  split_ifs <;> exact ⟨rfl, rfl⟩

open DEFAULTS in
/-- When the drift roll fails, the velocity written by `update` is the
bounce-reflected one. -/
theorem update_vel_nodrift (e : Entity) (mult : ℝ) (vp : Viewport)
    (rnd : Entity.UpdateRand) (hm : e.mounted = true) (hal : e.alive = true)
    (hd : e.dying = false) (hnd : ¬(rnd.driftRoll < DRIFT_CHANCE)) :
    (e.update mult vp rnd).vx = (Entity.bounceAxis (e.movedX mult) e.vx ICON_HALF vp.vw).2 ∧
    (e.update mult vp rnd).vy = (Entity.bounceAxis (e.movedY mult) e.vy ICON_HALF vp.vh).2 := by
  rw [Entity.update, if_neg (by simp [hm, hal, hd])]
  dsimp only
  rw [if_neg hnd]
  exact ⟨rfl, rfl⟩

open DEFAULTS in
/-- When the drift roll passes and the kicked velocity stays under the
speed cap, the velocity written by `update` is the bounce-reflected
one plus the kick. -/
theorem update_vel_drift_nocap (e : Entity) (mult : ℝ) (vp : Viewport)
    (rnd : Entity.UpdateRand) (hm : e.mounted = true) (hal : e.alive = true)
    (hd : e.dying = false) (hdrift : rnd.driftRoll < DRIFT_CHANCE)
    (hcap : ¬(Real.sqrt
      (((Entity.bounceAxis (e.movedX mult) e.vx ICON_HALF vp.vw).2 +
          ((rnd.r1 : ℝ) - 0.5) * DRIFT_MAGNITUDE) ^ 2 +
        ((Entity.bounceAxis (e.movedY mult) e.vy ICON_HALF vp.vh).2 +
          ((rnd.r2 : ℝ) - 0.5) * DRIFT_MAGNITUDE) ^ 2) >
      BASE_SPEED * MAX_SPEED_FACTOR)) :
    (e.update mult vp rnd).vx = (Entity.bounceAxis (e.movedX mult) e.vx ICON_HALF vp.vw).2 +
      ((rnd.r1 : ℝ) - 0.5) * DRIFT_MAGNITUDE ∧
    (e.update mult vp rnd).vy = (Entity.bounceAxis (e.movedY mult) e.vy ICON_HALF vp.vh).2 +
      ((rnd.r2 : ℝ) - 0.5) * DRIFT_MAGNITUDE := by
  rw [Entity.update, if_neg (by simp [hm, hal, hd])]
  dsimp only
  rw [if_pos hdrift]
  try dsimp only
  rw [if_neg hcap]
  exact ⟨rfl, rfl⟩

open DEFAULTS in
/-- C1 (amended): for every mounted, alive, non-dying entity whose
movement step penetrates a viewport boundary to any depth (viewport
wider and taller than one icon), `update` leaves the position clamped
exactly onto that boundary for every random outcome, and the
corresponding velocity component is the inward-pointing
reflect-by-absolute-value — guaranteed whenever the per-tick random
drift kick does not fire in the same call. -/
theorem entity_update_edge_bounce (e : Entity) (mult : ℝ) (vp : Viewport)
    (rnd : Entity.UpdateRand) (hm : e.mounted = true) (hal : e.alive = true)
    (hd : e.dying = false) (hvw : 2 * ICON_HALF < vp.vw)
    (hvh : 2 * ICON_HALF < vp.vh) :
    (e.movedX mult ≤ ICON_HALF →
      (e.update mult vp rnd).x = ICON_HALF ∧
      (DRIFT_CHANCE ≤ rnd.driftRoll → (e.update mult vp rnd).vx = |e.vx|)) ∧
    (vp.vw - ICON_HALF ≤ e.movedX mult →
      (e.update mult vp rnd).x = vp.vw - ICON_HALF ∧
      (DRIFT_CHANCE ≤ rnd.driftRoll → (e.update mult vp rnd).vx = -|e.vx|)) ∧
    (e.movedY mult ≤ ICON_HALF →
      (e.update mult vp rnd).y = ICON_HALF ∧
      (DRIFT_CHANCE ≤ rnd.driftRoll → (e.update mult vp rnd).vy = |e.vy|)) ∧
    (vp.vh - ICON_HALF ≤ e.movedY mult →
      (e.update mult vp rnd).y = vp.vh - ICON_HALF ∧
      (DRIFT_CHANCE ≤ rnd.driftRoll → (e.update mult vp rnd).vy = -|e.vy|)) := by
  refine ⟨fun hx => ⟨?_, fun hnd => ?_⟩, fun hx => ⟨?_, fun hnd => ?_⟩,
    fun hy => ⟨?_, fun hnd => ?_⟩, fun hy => ⟨?_, fun hnd => ?_⟩⟩
  · rw [(update_pos e mult vp rnd hm hal hd).1,
      bounceAxis_low _ _ _ _ (by linarith) (by linarith)]
  · rw [(update_vel_nodrift e mult vp rnd hm hal hd (not_lt.mpr hnd)).1,
      bounceAxis_low _ _ _ _ (by linarith) (by linarith)]
  · rw [(update_pos e mult vp rnd hm hal hd).1,
      bounceAxis_high _ _ _ _ (by linarith) (by linarith)]
  · rw [(update_vel_nodrift e mult vp rnd hm hal hd (not_lt.mpr hnd)).1,
      bounceAxis_high _ _ _ _ (by linarith) (by linarith)]
  · rw [(update_pos e mult vp rnd hm hal hd).2,
      bounceAxis_low _ _ _ _ (by linarith) (by linarith)]
  · rw [(update_vel_nodrift e mult vp rnd hm hal hd (not_lt.mpr hnd)).2,
      bounceAxis_low _ _ _ _ (by linarith) (by linarith)]
  · rw [(update_pos e mult vp rnd hm hal hd).2,
      bounceAxis_high _ _ _ _ (by linarith) (by linarith)]
  · rw [(update_vel_nodrift e mult vp rnd hm hal hd (not_lt.mpr hnd)).2,
      bounceAxis_high _ _ _ _ (by linarith) (by linarith)]

open DEFAULTS in
/-- C1 witness: an entity penetrating the left edge, updated with a
failing drift roll, ends exactly on the boundary with inward
velocity. -/
theorem entity_update_edge_bounce_witness :
    (eC1.update 1 ⟨1000, 1000⟩ ⟨1 / 2, 1 / 2, 1 / 2⟩).x = ICON_HALF ∧
    (eC1.update 1 ⟨1000, 1000⟩ ⟨1 / 2, 1 / 2, 1 / 2⟩).vx = |eC1.vx| := by
  have hgene : eC1.geneMult = ((1.0 : ℚ) : ℝ) := rfl
  have hmx : eC1.movedX 1 ≤ ICON_HALF := by
    rw [Entity.movedX, hgene, show eC1.x = 2 from rfl, show eC1.vx = -(1 / 20) from rfl,
      ICON_HALF]
    norm_num
  have h := entity_update_edge_bounce eC1 1 ⟨1000, 1000⟩ ⟨1 / 2, 1 / 2, 1 / 2⟩
    rfl rfl rfl
    (by rw [ICON_HALF]; norm_num) (by rw [ICON_HALF]; norm_num)
  exact ⟨(h.1 hmx).1, (h.1 hmx).2 (by rw [DRIFT_CHANCE]; norm_num)⟩

open DEFAULTS in
/-- C1 counterexample: the same penetrating update with a firing drift
roll (`driftRoll = 0`, kick oracle `r1 = 0`) still clamps the position
onto the left boundary but returns a velocity pointing back out of the
viewport, so the claim's unconditional inward-sign guarantee is false. -/
theorem entity_update_drift_flips_sign :
    eC1.movedX 1 ≤ ICON_HALF ∧
    (eC1.update 1 ⟨1000, 1000⟩ ⟨0, 0, 1 / 2⟩).x = ICON_HALF ∧
    (eC1.update 1 ⟨1000, 1000⟩ ⟨0, 0, 1 / 2⟩).vx < 0 := by
  have hgene : eC1.geneMult = ((1.0 : ℚ) : ℝ) := rfl
  have hmxv : eC1.movedX 1 = 39 / 20 := by
    rw [Entity.movedX, hgene, show eC1.x = 2 from rfl, show eC1.vx = -(1 / 20) from rfl]
    norm_num
  have hmx : eC1.movedX 1 ≤ ICON_HALF := by
    rw [hmxv, ICON_HALF]
    norm_num
  have hmyv : eC1.movedY 1 = 100 := by
    rw [Entity.movedY, hgene, show eC1.y = 100 from rfl, show eC1.vy = 0 from rfl]
    norm_num
  have hbx : Entity.bounceAxis (eC1.movedX 1) eC1.vx ICON_HALF (1000 : ℝ) =
      (ICON_HALF, |eC1.vx|) := by
    apply bounceAxis_low
    · rw [hmxv, ICON_HALF]; norm_num
    · rw [ICON_HALF]; norm_num
  have hby : Entity.bounceAxis (eC1.movedY 1) eC1.vy ICON_HALF (1000 : ℝ) =
      (eC1.movedY 1, eC1.vy) := by
    apply bounceAxis_mid
    · rw [hmyv, ICON_HALF]; norm_num
    · rw [hmyv, ICON_HALF]; norm_num
  have habs : |eC1.vx| = 1 / 20 := by
    rw [show eC1.vx = -(1 / 20) from rfl, abs_neg, abs_of_nonneg (by norm_num)]
  have hvx1 : (Entity.bounceAxis (eC1.movedX 1) eC1.vx ICON_HALF (1000 : ℝ)).2 +
      (((0 : ℚ) : ℝ) - 0.5) * DRIFT_MAGNITUDE = -(3 / 40) := by
    rw [hbx]
    dsimp only
    rw [habs, DRIFT_MAGNITUDE]
    norm_num
  have hvy1 : (Entity.bounceAxis (eC1.movedY 1) eC1.vy ICON_HALF (1000 : ℝ)).2 +
      (((1 / 2 : ℚ) : ℝ) - 0.5) * DRIFT_MAGNITUDE = 0 := by
    rw [hby]
    dsimp only
    rw [show eC1.vy = 0 from rfl, DRIFT_MAGNITUDE]
    norm_num
  have hcap : ¬(Real.sqrt
      (((Entity.bounceAxis (eC1.movedX 1) eC1.vx ICON_HALF (1000 : ℝ)).2 +
          (((0 : ℚ) : ℝ) - 0.5) * DRIFT_MAGNITUDE) ^ 2 +
        ((Entity.bounceAxis (eC1.movedY 1) eC1.vy ICON_HALF (1000 : ℝ)).2 +
          (((1 / 2 : ℚ) : ℝ) - 0.5) * DRIFT_MAGNITUDE) ^ 2) >
      BASE_SPEED * MAX_SPEED_FACTOR) := by
    rw [hvx1, hvy1]
    rw [show (-(3 / 40 : ℝ)) ^ 2 + (0 : ℝ) ^ 2 = (3 / 40) ^ 2 by norm_num]
    rw [Real.sqrt_sq (by norm_num : (0 : ℝ) ≤ 3 / 40), BASE_SPEED, MAX_SPEED_FACTOR]
    norm_num
  refine ⟨hmx, ?_, ?_⟩
  · rw [(update_pos eC1 1 ⟨1000, 1000⟩ ⟨0, 0, 1 / 2⟩ rfl rfl rfl).1, hbx]
  · rw [(update_vel_drift_nocap eC1 1 ⟨1000, 1000⟩ ⟨0, 0, 1 / 2⟩ rfl rfl rfl
      (by rw [DRIFT_CHANCE]; norm_num) hcap).1, hvx1]
    norm_num

/-! ### Division-block lemmas -/

/-- A sublist without ready dividers contributes no offspring. -/
theorem divisionLoop_no_divider (vp : Viewport) (rnd : ℕ → DivisionRand) :
    ∀ (l : List Entity) (i : ℕ), l.filter Entity.wantsToDivide = [] →
      (divisionLoop vp rnd l i).2 = []
  | [], _, _ => rfl
  | a :: rest, i, h => by
    rw [divisionLoop]
    by_cases hpa : a.wantsToDivide = true
    · rw [List.filter_cons, if_pos hpa] at h
      cases h
    · rw [List.filter_cons, if_neg hpa] at h
      rw [if_neg hpa]
      dsimp only
      exact divisionLoop_no_divider vp rnd rest (i + 1) h

/-- A sublist whose only ready divider is `e` contributes exactly the
one offspring produced from `e` (at the oracle index where `e` sits). -/
theorem divisionLoop_single (vp : Viewport) (rnd : ℕ → DivisionRand) (e : Entity) :
    ∀ (l : List Entity) (i : ℕ), l.filter Entity.wantsToDivide = [e] →
      ∃ j, (divisionLoop vp rnd l i).2 =
        [(e.resetDivision (rnd j).resetR).divide vp (rnd j).div]
  | [], _, h => by simp at h
  | a :: rest, i, h => by
    rw [divisionLoop]
    by_cases hpa : a.wantsToDivide = true
    · rw [List.filter_cons, if_pos hpa, List.cons.injEq] at h
      rw [if_pos hpa]
      dsimp only
      refine ⟨i, ?_⟩
      rw [divisionLoop_no_divider vp rnd rest (i + 1) h.2, h.1]
    · rw [List.filter_cons, if_neg hpa] at h
      rw [if_neg hpa]
      dsimp only
      exact divisionLoop_single vp rnd e rest (i + 1) h

open DEFAULTS in
/-- C8: at or above `MAX_POPULATION` the division block of a tick does
nothing even if countdowns are at zero; at `MAX_POPULATION − 1` a tick
whose only ready cell is `e` produces exactly one offspring config,
whose trait-set is the parent's put through `reproduce` (mutation). -/
theorem division_population_cap (entities : List Entity) (vp : Viewport)
    (rnd : ℕ → DivisionRand) (e : Entity) :
    (MAX_POPULATION ≤ entities.length →
      divisionPhase entities vp rnd = (entities, [])) ∧
    (entities.length = MAX_POPULATION - 1 →
      entities.filter Entity.wantsToDivide = [e] →
      ∃ j, (divisionPhase entities vp rnd).2 =
          [(e.resetDivision (rnd j).resetR).divide vp (rnd j).div] ∧
        ((e.resetDivision (rnd j).resetR).divide vp (rnd j).div).dna =
          e.dna.reproduce MUTATION_RATE "cell" (rnd j).div.repro) := by
  constructor
  · intro hcap
    rw [divisionPhase, if_neg (not_lt.mpr hcap)]
  · intro hlen hfilter
    have hlt : entities.length < MAX_POPULATION := by
      rw [hlen, MAX_POPULATION]
      norm_num
    rw [divisionPhase, if_pos hlt]
    obtain ⟨j, hj⟩ := divisionLoop_single vp rnd e entities 0 hfilter
    exact ⟨j, hj, rfl⟩

/-- C8 witness: 50 entities block a ready cell from dividing; 49
entities let the single ready cell divide once, with `reproduce`-d
DNA. -/
theorem division_population_cap_witness :
    divisionPhase ents50 ⟨1000, 1000⟩ rndC8 = (ents50, []) ∧
    (∃ j, (divisionPhase ents49 ⟨1000, 1000⟩ rndC8).2 =
        [(readyC8.resetDivision (rndC8 j).resetR).divide ⟨1000, 1000⟩ (rndC8 j).div] ∧
      ((readyC8.resetDivision (rndC8 j).resetR).divide ⟨1000, 1000⟩ (rndC8 j).div).dna =
        readyC8.dna.reproduce DEFAULTS.MUTATION_RATE "cell" (rndC8 j).div.repro) := by
  constructor
  · exact (division_population_cap ents50 ⟨1000, 1000⟩ rndC8 readyC8).1
      (by rw [DEFAULTS.MAX_POPULATION, ents50]; simp)
  · refine (division_population_cap ents49 ⟨1000, 1000⟩ rndC8 readyC8).2 ?_ ?_
    · rw [DEFAULTS.MAX_POPULATION, ents49]
      simp
    · rw [ents49]
      rw [List.filter_append]
      have h1 : (List.replicate 48 dummyC8).filter Entity.wantsToDivide = [] := by
        apply List.filter_eq_nil_iff.mpr
        intro a ha
        rw [List.eq_of_mem_replicate ha]
        rw [show Entity.wantsToDivide dummyC8 = false from rfl]
        exact Bool.false_ne_true
      have h2 : [readyC8].filter Entity.wantsToDivide = [readyC8] := by
        rw [List.filter_cons, if_pos (show Entity.wantsToDivide readyC8 = true from rfl)]
        rfl
      rw [h1, h2, List.nil_append]

end Devpage
